import Mathlib

/-!
Shallow embedding of the zone-based intrusion detection engine of the
civicsenitnal repository, and verification of its specification claims.

Coordinates, confidences and times are modelled as exact rationals.
Source files embedded here:
  app/services/zone_service.py   (parse_zone_coordinates, is_point_in_polygon,
                                  get_bbox_center, check_zones)
  app/services/yolo_service.py   (the post-processing detection filter)
  app/db/crud.py                 (get_camera_zones, create_zone, delete_zone)
  app/api/zones.py               (create_zone endpoint validation)
  app/models/schemas.py          (ZoneCreate validation)
  detection-demo/detect_with_zones_complete.py (ray-casting point_in_polygon)
-/

namespace CivicSentinel

/-- A parsed JSON value, the outcome of Python json.loads on a stored
coordinate string: numbers, booleans, null, strings, arrays and objects
(objects keep their keys in insertion order, as Python dicts do).  A stored
string that is not valid JSON is modelled as the absence of a value
(Option.none) at the use sites. -/
inductive JsonVal where
| num (q : ℚ)
| bool (b : Bool)
| null
| str (s : String)
| arr (elems : List JsonVal)
| obj (fields : List (String × JsonVal))

/-- Value of a decimal digit character, none for a non-digit. -/
def digitVal (c : Char) : Option ℕ :=
  if c.isDigit then some (c.toNat - 48) else none

/-- Value of a digit sequence read left to right; none as soon as one
character is not a digit; the empty sequence reads as 0 (callers guard
emptiness where Python requires a digit). -/
def digitsVal (cs : List Char) : Option ℕ :=
  cs.foldl (fun acc c =>
    match acc, digitVal c with
    | some n, some d => some (10 * n + d)
    | _, _ => none) (some 0)

/-- Models the Python builtin float() applied to a string argument for the
plain decimal forms: an optional sign followed by digits with at most one
decimal point and at least one digit ("7", "-2.5", ".5", "3.").  The other
forms Python accepts (exponents, inf, nan, surrounding whitespace,
underscores, non-ASCII digits) are outside the model; no stated theorem
depends on a string of those forms. -/
def pyFloatOfString (s : String) : Option ℚ :=
  let signed : Bool × List Char :=
    match s.toList with
    | '-' :: rest => (true, rest)
    | '+' :: rest => (false, rest)
    | cs => (false, cs)
  let body := signed.2
  let parts := body.span (fun c => c ≠ '.')
  let magnitude : Option ℚ :=
    match parts.2 with
    | [] =>
      if parts.1.isEmpty then none
      else (digitsVal parts.1).map (fun n => (n : ℚ))
    | _ :: fp =>
      if fp.contains '.' then none
      else if parts.1.isEmpty && fp.isEmpty then none
      else
        match digitsVal parts.1, digitsVal fp with
        | some n, some f => some ((n : ℚ) + (f : ℚ) / (10 : ℚ) ^ fp.length)
        | _, _ => none
  magnitude.map (fun q => if signed.1 then -q else q)

/-- Models the Python builtin float() applied to a parsed JSON value, as used
in parse_zone_coordinates (zone_service.py line 30): JSON numbers convert to
themselves; JSON booleans convert to 1 and 0 because Python bool is a
subclass of int; strings convert by the numeric-string grammar; null, arrays
and objects raise TypeError, modelled as none. -/
def pyFloat : JsonVal → Option ℚ
| .num q => some q
| .bool b => some (if b then 1 else 0)
| .str s => pyFloatOfString s
| .null => none
| .arr _ => none
| .obj _ => none

/-- Models one step of the comprehension in parse_zone_coordinates
(zone_service.py line 30): Python sequence unpacking of one element followed
by float() on both parts.  Unpacking succeeds on any sequence of length 2:
a 2-element array yields its components, a 2-character string yields its two
1-character strings, a 2-key object yields its keys; everything else raises
(ValueError or TypeError), modelled as none, as does a failing float(). -/
def coordOfElem : JsonVal → Option (ℚ × ℚ)
| .arr [a, b] =>
  match pyFloat a, pyFloat b with
  | some x, some y => some (x, y)
  | _, _ => none
| .str s =>
  match s.toList with
  | [c1, c2] =>
    match pyFloatOfString (String.mk [c1]), pyFloatOfString (String.mk [c2]) with
    | some x, some y => some (x, y)
    | _, _ => none
  | _ => none
| .obj [(k1, _), (k2, _)] =>
  match pyFloatOfString k1, pyFloatOfString k2 with
  | some x, some y => some (x, y)
  | _, _ => none
| _ => none

/-- Models the iteration of the comprehension in parse_zone_coordinates over
the parsed array elements, left to right: the whole conversion succeeds only
when every element converts, and the first failing element raises. -/
def coordsOfList : List JsonVal → Option (List (ℚ × ℚ))
| [] => some []
| e :: es =>
  match coordOfElem e, coordsOfList es with
  | some p, some rest => some (p :: rest)
  | _, _ => none

/-- Models the whole try-block of parse_zone_coordinates (zone_service.py
lines 28-30): json.loads followed by the element-wise conversion.  The input
is the json.loads outcome on the stored string (none when the string is not
valid JSON); the result is none exactly when some step of the Python body
raises.  Iteration follows Python: an array yields its elements, a string
yields its characters as 1-character strings, an object yields its keys;
numbers, booleans and null are not iterable (TypeError). -/
def coordsOfJson : Option JsonVal → Option (List (ℚ × ℚ))
| none => none
| some (.arr elems) => coordsOfList elems
| some (.str s) => coordsOfList (s.toList.map (fun c => .str (String.mk [c])))
| some (.obj fields) => coordsOfList (fields.map (fun f => .str f.1))
| some _ => none

/-- Whether Python float() raises TypeError on a value regardless of its
content: null, arrays and objects are never float-convertible. -/
def floatAlwaysRaises : JsonVal → Bool
| .null => true
| .arr _ => true
| .obj _ => true
| _ => false

/-- Array elements on which the unpack-and-convert step of the comprehension
necessarily raises, independently of the numeric-string grammar: values that
are not iterable (numbers, booleans, null), sequences whose length is not 2,
and 2-element arrays with a component float() always rejects. -/
def unpackRaises : JsonVal → Bool
| .num _ => true
| .bool _ => true
| .null => true
| .str s => decide (s.toList.length ≠ 2)
| .arr [a, b] => floatAlwaysRaises a || floatAlwaysRaises b
| .arr _ => true
| .obj fields => decide (fields.length ≠ 2)

/-- ZoneDetectionService.parse_zone_coordinates (zone_service.py lines 17-33):
returns the converted coordinate list, and the empty list whenever the
try-block raises (the except branch at lines 31-33). -/
def parse_zone_coordinates (coordinates_json : Option JsonVal) : List (ℚ × ℚ)  :=
  match coordsOfJson coordinates_json with
  | some coords => coords
  | none => []

/-- One iteration of the ray-casting loop of point_in_polygon
(detect_with_zones_complete.py lines 128-138): decides whether the inside
flag toggles for the edge from (p1x, p1y) to (p2x, p2y).  The inner branch
where p1y = p2y is unreachable when the outer bounds hold (y > min and
y ≤ max force p1y ≠ p2y); in that dead branch the source would compare
against a stale intercept, and only the p1x = p2x disjunct is modelled. -/
def edgeToggles (x y p1x p1y p2x p2y : ℚ) : Bool :=
  if y > min p1y p2y then
    if y ≤ max p1y p2y then
      if x ≤ max p1x p2x then
        if p1y ≠ p2y then
          decide (p1x = p2x) || decide (x ≤ (y - p1y) * (p2x - p1x) / (p2y - p1y) + p1x)
        else
          decide (p1x = p2x)
      else false
    else false
  else false

/-- CompleteZoneDemo.point_in_polygon (detect_with_zones_complete.py lines
119-140): ray casting over the closed edge cycle (v0,v1), ..., (v_last,v0),
guarded to return false for polygons with fewer than 3 vertices. -/
def point_in_polygon (point : ℚ × ℚ) (polygon : List (ℚ × ℚ)) : Bool :=
  if polygon.length < 3 then false
  else
    (polygon.zip (polygon.drop 1 ++ polygon.take 1)).foldl
      (fun inside e =>
        if edgeToggles point.1 point.2 e.1.1 e.1.2 e.2.1 e.2.2 then !inside else inside)
      false

/-- Models the external shapely Polygon.contains call of
ZoneDetectionService.is_point_in_polygon (zone_service.py lines 52-55) with
the repository's own ray-casting containment predicate (the algorithm the
spec gives for the Geometry Module); the spec leaves exact on-edge behaviour
implementation-defined, and no claim depends on it. -/
def shapely_contains (polygon_coords : List (ℚ × ℚ)) (point : ℚ × ℚ) : Bool :=
  point_in_polygon point polygon_coords

/-- Outcome of one containment check: either the degenerate-polygon guard
fired (the source emits a warning and answers false without evaluating the
geometry), or the geometry was evaluated with the given result. -/
inductive PolyCheck where
| invalid
| evaluated (result : Bool)
deriving DecidableEq, Repr

/-- ZoneDetectionService.is_point_in_polygon with its observable outcome
(zone_service.py lines 36-59): polygons with fewer than 3 vertices are
rejected by the guard at lines 48-50 (logger.warning, return False) before
any geometry is constructed. -/
def is_point_in_polygon_checked (point : ℚ × ℚ) (polygon_coords : List (ℚ × ℚ)) : PolyCheck :=
  if polygon_coords.length < 3 then .invalid
  else .evaluated (shapely_contains polygon_coords point)

/-- ZoneDetectionService.is_point_in_polygon (zone_service.py lines 36-59):
the boolean answer of the checked containment test. -/
def is_point_in_polygon (point : ℚ × ℚ) (polygon_coords : List (ℚ × ℚ)) : Bool :=
  match is_point_in_polygon_checked point polygon_coords with
  | .invalid => false
  | .evaluated r => r

/-- BoundingBox schema (schemas.py lines 9-15). -/
structure BoundingBox where
  x1 : ℚ
  y1 : ℚ
  x2 : ℚ
  y2 : ℚ
deriving DecidableEq, Repr

/-- Detection schema (schemas.py lines 18-25). -/
structure Detection where
  class_name : String
  confidence : ℚ
  bbox : BoundingBox
deriving DecidableEq, Repr

/-- ZoneAlert schema (schemas.py lines 28-34). -/
structure ZoneAlert where
  zone_id : Nat
  zone_name : String
  alert_type : String
  confidence : ℚ
deriving DecidableEq, Repr

/-- Modelled from the spec: the active-hours window of a zone.  The source
stores this field as an opaque JSON string and never parses or enforces it
(spec section 9, open question); the spec-side Zone Registry read needs an
interpretation, so a window is modelled as a half-open range of hours. -/
structure ActiveHours where
  start_hour : ℚ
  end_hour : ℚ
deriving DecidableEq, Repr

/-- Modelled from the spec: whether an optional active-hours window contains
an evaluation time; a zone with no window is unconditionally in-window. -/
def activeHoursContains (window : Option ActiveHours) (at_time : ℚ) : Bool :=
  match window with
  | none => true
  | some w => decide (w.start_hour ≤ at_time ∧ at_time < w.end_hour)

/-- Zone database model (database.py lines 53-79).  coordinates_json holds
the json.loads outcome of the stored coordinate string (none when the string
is not valid JSON); active_hours holds the modelled window (the source never
reads it). -/
structure Zone where
  id : Nat
  camera_id : String
  name : String
  coordinates_json : Option JsonVal
  alert_type : String
  active : Bool
  active_hours : Option ActiveHours
  created_at : Nat

/-- ZoneDetectionService.get_bbox_center (zone_service.py lines 61-74). -/
def get_bbox_center (bbox : BoundingBox) : ℚ × ℚ :=
  ((bbox.x1 + bbox.x2) / 2, (bbox.y1 + bbox.y2) / 2)

/-- The alert built for one zone violation (zone_service.py lines 112-117). -/
def zoneDetectionAlert (zone : Zone) (detection : Detection) : ZoneAlert :=
  { zone_id := zone.id, zone_name := zone.name, alert_type := zone.alert_type,
    confidence := detection.confidence }

/-- The inner detection loop body of check_zones (zone_service.py lines
105-118): append an alert when the bounding-box center lies in the zone
polygon. -/
def alertStep (zone : Zone) (polygon_coords : List (ℚ × ℚ))
    (alerts : List ZoneAlert) (detection : Detection) : List ZoneAlert :=
  let center := get_bbox_center detection.bbox
  if is_point_in_polygon center polygon_coords then
    alerts ++ [zoneDetectionAlert zone detection]
  else alerts

/-- The outer zone loop body of check_zones (zone_service.py lines 93-118),
carrying, next to the alert accumulator, the ids of zones reported invalid by
the logger.warning at line 101 (active zones whose coordinates parse to the
empty list). -/
def zoneStep (detections : List Detection)
    (acc : List ZoneAlert × List Nat) (zone : Zone) : List ZoneAlert × List Nat :=
  if !zone.active then acc
  else
    let polygon_coords := parse_zone_coordinates zone.coordinates_json
    if polygon_coords.isEmpty then (acc.1, acc.2 ++ [zone.id])
    else (detections.foldl (alertStep zone polygon_coords) acc.1, acc.2)

/-- ZoneDetectionService.check_zones (zone_service.py lines 76-125) together
with its observability output: the produced alerts and the ids of zones
reported as having invalid coordinates.  The empty-zones fast path at lines
89-91 is kept. -/
def check_zones_with_report (detections : List Detection) (zones : List Zone) :
    List ZoneAlert × List Nat :=
  if zones.isEmpty then ([], [])
  else zones.foldl (zoneStep detections) ([], [])

/-- ZoneDetectionService.check_zones (zone_service.py lines 76-125): the
alert list returned to the caller. -/
def check_zones (detections : List Detection) (zones : List Zone) : List ZoneAlert :=
  (check_zones_with_report detections zones).1

/-- The per-zone alert list used to state what check_zones produces: one
alert per detection whose bounding-box center the zone polygon contains, in
detection order. -/
def zoneAlerts (detections : List Detection) (zone : Zone) : List ZoneAlert :=
  detections.filterMap (fun d =>
    if is_point_in_polygon (get_bbox_center d.bbox)
        (parse_zone_coordinates zone.coordinates_json) then
      some (zoneDetectionAlert zone d)
    else none)

/-- The ids check_zones reports as invalid: active zones whose coordinate
data parses to the empty list, in zone order. -/
def invalidReport (zones : List Zone) : List Nat :=
  zones.filterMap (fun z =>
    if z.active = true ∧ (parse_zone_coordinates z.coordinates_json).isEmpty = true then
      some z.id
    else none)

/-- One raw box of the YOLO model output as read by
YOLODetectionService.detect_objects (yolo_service.py lines 97-111): class id,
confidence and xyxy coordinates.  The model inference itself is external; the
embedding starts at the per-box post-processing loop. -/
structure RawBox where
  class_id : Nat
  conf : ℚ
  x1 : ℚ
  y1 : ℚ
  x2 : ℚ
  y2 : ℚ
deriving DecidableEq, Repr

/-- COCO class id for person (yolo_service.py line 27). -/
def person_class_id : Nat := 0

/-- The post-processing filter loop of YOLODetectionService.detect_objects
(yolo_service.py lines 94-136): keep person boxes, drop confidence below 0.3
(line 119), drop boxes narrower than 20 or shorter than 40 pixels (line 125),
and build Detection records in box order. -/
def detect_objects (boxes : List RawBox) : List Detection :=
  boxes.filterMap (fun box =>
    if box.class_id ≠ person_class_id then none
    else
      let confidence := box.conf
      let width := box.x2 - box.x1
      let height := box.y2 - box.y1
      if confidence < 0.3 then none
      else if width < 20 ∨ height < 40 then none
      else some { class_name := "person", confidence := confidence,
                  bbox := { x1 := box.x1, y1 := box.y1, x2 := box.x2, y2 := box.y2 } })

/-- The retention predicate of the Detection Filter, used to state what
detect_objects keeps. -/
def keepsBox (box : RawBox) : Bool :=
  decide (box.class_id = person_class_id ∧ (0.3 : ℚ) ≤ box.conf ∧
    (20 : ℚ) ≤ box.x2 - box.x1 ∧ (40 : ℚ) ≤ box.y2 - box.y1)

/-- The Detection built from a retained raw box. -/
def detectionOfBox (box : RawBox) : Detection :=
  { class_name := "person", confidence := box.conf,
    bbox := { x1 := box.x1, y1 := box.y1, x2 := box.x2, y2 := box.y2 } }

/-- Alert database model (database.py lines 82-110); the autoincrement id and
the unused extra_data field are omitted. -/
structure Alert where
  camera_id : String
  zone_id : Nat
  detection_type : String
  confidence : ℚ
  bbox_json : Option String
  image_url : Option String
  timestamp : Nat
deriving DecidableEq, Repr

/-- The database state visible to the zone and alert CRUD operations: the
stored zones and alerts in insertion order, and the next zone primary key. -/
structure Db where
  zones : List Zone
  alerts : List Alert
  next_zone_id : Nat

/-- crud.get_zone (crud.py lines 73-76): first stored zone with the given
primary key. -/
def get_zone (db : Db) (zone_id : Nat) : Option Zone :=
  db.zones.find? (fun z => z.id == zone_id)

/-- crud.get_camera_zones (crud.py lines 79-85): the zones of a camera, with
an active = true filter when active_only is set.  No other condition is part
of the query; in particular active_hours is not consulted. -/
def get_camera_zones (db : Db) (camera_id : String) (active_only : Bool) : List Zone :=
  let query := db.zones.filter (fun z => z.camera_id == camera_id)
  if active_only then query.filter (fun z => z.active) else query

/-- Modelled from the spec: the Zone Registry read
activeZonesForCamera(cameraId, atTime) of spec section 4.3, returning only
zones with active = true whose active-hours window (if any) contains atTime.
This definition follows the spec words and exists to be compared with
get_camera_zones, the read the source actually performs. -/
def activeZonesForCamera (db : Db) (camera_id : String) (at_time : ℚ) : List Zone :=
  db.zones.filter (fun z =>
    z.camera_id == camera_id && z.active && activeHoursContains z.active_hours at_time)

/-- json.dumps of a coordinate list as stored by crud.create_zone (crud.py
line 101): the dumped string always parses back to the array value. -/
def dumpsCoordinates (coordinates : List (List ℚ)) : JsonVal :=
  .arr (coordinates.map (fun p => .arr (p.map JsonVal.num)))

/-- crud.create_zone (crud.py lines 88-108): build the Zone row with
coordinates_json = json.dumps(coordinates) and append it to the store. -/
def crud_create_zone (db : Db) (camera_id : String) (name : String)
    (coordinates : List (List ℚ)) (alert_type : String) (active : Bool)
    (active_hours : Option ActiveHours) (now : Nat) : Zone × Db :=
  let zone : Zone :=
    { id := db.next_zone_id, camera_id := camera_id, name := name,
      coordinates_json := some (dumpsCoordinates coordinates),
      alert_type := alert_type, active := active, active_hours := active_hours,
      created_at := now }
  (zone, { db with zones := db.zones ++ [zone], next_zone_id := db.next_zone_id + 1 })

/-- crud.delete_zone (crud.py lines 111-125): when the zone exists, first
delete every alert whose zone_id references it, then delete the zone row;
report whether a zone was deleted. -/
def crud_delete_zone (db : Db) (zone_id : Nat) : Bool × Db :=
  match get_zone db zone_id with
  | none => (false, db)
  | some _ =>
    (true,
     { db with
        alerts := db.alerts.filter (fun a => !(a.zone_id == zone_id)),
        zones := db.zones.eraseP (fun z => z.id == zone_id) })

/-- The request body of POST /cameras/(camera_id)/zones before validation
(schemas.py ZoneCreate, lines 47-58). -/
structure ZoneCreateData where
  name : String
  coordinates : List (List ℚ)
  alert_type : String
  active : Bool
  active_hours : Option ActiveHours
deriving Repr

/-- Pydantic validation of ZoneCreate (schemas.py lines 47-58): name length
between 1 and 255 and at least 3 coordinate points (min_length = 3).  FastAPI
runs this before the handler; failure is a 422 response. -/
def zoneCreateValidate (raw : ZoneCreateData) : Option ZoneCreateData :=
  if raw.name.length < 1 ∨ 255 < raw.name.length then none
  else if raw.coordinates.length < 3 then none
  else some raw

/-- Outcome of the zone-creation endpoint: a created zone or a client error
with its HTTP status. -/
inductive CreateZoneOutcome where
| created (zone : Zone)
| clientError (status : Nat) (detail : String)

/-- The create_zone endpoint (zones.py lines 19-100) over the zone store:
pydantic body validation first (422), then the camera ownership check (403;
owner_ok models that the camera exists and belongs to the caller or is
auto-created), then the explicit coordinate re-check at lines 59-64 (400),
then storage via crud.create_zone.  Camera auto-creation touches only the
camera table and is outside the modelled state. -/
def create_zone_endpoint (db : Db) (camera_id : String) (raw : ZoneCreateData)
    (owner_ok : Bool) (now : Nat) : CreateZoneOutcome × Db :=
  match zoneCreateValidate raw with
  | none => (.clientError 422 "validation error", db)
  | some zone_data =>
    if !owner_ok then
      (.clientError 403 "You do not have permission to modify this camera", db)
    else if zone_data.coordinates.length < 3 then
      (.clientError 400 "Zone must have at least 3 coordinate points", db)
    else
      let zd := crud_create_zone db camera_id zone_data.name zone_data.coordinates
        zone_data.alert_type zone_data.active zone_data.active_hours now
      (.created zd.1, zd.2)

/-- Whether an endpoint outcome is a client (4xx) error. -/
def CreateZoneOutcome.isClientError : CreateZoneOutcome → Bool
| .created _ => false
| .clientError status _ => decide (400 ≤ status ∧ status < 500)

/-- Declarative conversion judgment for Python float() on a parsed JSON
value, used to state what parse_zone_coordinates accepts. -/
inductive ConvertsToFloat : JsonVal → ℚ → Prop
| num (q : ℚ) : ConvertsToFloat (.num q) q
| true_is_one : ConvertsToFloat (.bool true) 1
| false_is_zero : ConvertsToFloat (.bool false) 0

/-- Declarative shape judgment for a JSON value that parse_zone_coordinates
converts in full: an array of 2-element arrays of float-convertible
components, converting to the given coordinate list. -/
inductive CoordArray : JsonVal → List (ℚ × ℚ) → Prop
| nil : CoordArray (.arr []) []
| cons {a b : JsonVal} {x y : ℚ} {rest : List JsonVal} {l : List (ℚ × ℚ)} :
    ConvertsToFloat a x → ConvertsToFloat b y → CoordArray (.arr rest) l →
    CoordArray (.arr (JsonVal.arr [a, b] :: rest)) ((x, y) :: l)

/-! Concrete example data used by witnesses and counterexamples. -/

/-- The square zone polygon of spec scenario A, as a parsed JSON value. -/
def squareCoordsJson : JsonVal :=
  .arr [.arr [.num 0, .num 0], .arr [.num 100, .num 0],
        .arr [.num 100, .num 100], .arr [.num 0, .num 100]]

/-- An active zone with the 100 by 100 square polygon. -/
def sq100Zone : Zone :=
  { id := 1, camera_id := "cam1", name := "yard", coordinates_json := some squareCoordsJson,
    alert_type := "intrusion", active := true, active_hours := none, created_at := 0 }

/-- An active zone whose stored coordinate string is not valid JSON. -/
def badJsonZone : Zone :=
  { id := 2, camera_id := "cam1", name := "broken", coordinates_json := none,
    alert_type := "intrusion", active := true, active_hours := none, created_at := 0 }

/-- An active zone whose coordinates parse to exactly two points. -/
def twoPointZone : Zone :=
  { id := 3, camera_id := "cam1", name := "segment",
    coordinates_json := some (.arr [.arr [.num 0, .num 0], .arr [.num 5, .num 0]]),
    alert_type := "intrusion", active := true, active_hours := none, created_at := 0 }

/-- An inactive zone with the square polygon. -/
def inactiveZone : Zone :=
  { id := 4, camera_id := "cam1", name := "off", coordinates_json := some squareCoordsJson,
    alert_type := "intrusion", active := false, active_hours := none, created_at := 0 }

/-- An active zone with an active-hours window from hour 9 to hour 17. -/
def nightZone : Zone :=
  { id := 5, camera_id := "cam1", name := "daytime", coordinates_json := some squareCoordsJson,
    alert_type := "intrusion", active := true,
    active_hours := some { start_hour := 9, end_hour := 17 }, created_at := 0 }

/-- A person detection whose bounding-box center (50, 50) lies inside the
square zone. -/
def centerDetection : Detection :=
  { class_name := "person", confidence := 9 / 10,
    bbox := { x1 := 40, y1 := 40, x2 := 60, y2 := 60 } }

/-- A store holding only the windowed zone. -/
def c2Db : Db := { zones := [nightZone], alerts := [], next_zone_id := 6 }

/-- An empty store. -/
def emptyDb : Db := { zones := [], alerts := [], next_zone_id := 1 }

/-- A creation request with only two polygon points. -/
def twoPointRequest : ZoneCreateData :=
  { name := "z", coordinates := [[0, 0], [1, 1]], alert_type := "intrusion",
    active := true, active_hours := none }

/-- An alert referencing zone 1. -/
def alertZ1 : Alert :=
  { camera_id := "cam1", zone_id := 1, detection_type := "person", confidence := 9 / 10,
    bbox_json := none, image_url := none, timestamp := 0 }

/-- An alert referencing zone 2. -/
def alertZ2 : Alert :=
  { camera_id := "cam1", zone_id := 2, detection_type := "person", confidence := 8 / 10,
    bbox_json := none, image_url := none, timestamp := 1 }

/-- A store with zone 1 and alerts for zones 1 and 2. -/
def c8Db : Db := { zones := [sq100Zone], alerts := [alertZ1, alertZ2], next_zone_id := 6 }

/-! Helper lemmas about the containment predicate and the check_zones folds. -/

theorem is_point_in_polygon_of_short {coords : List (ℚ × ℚ)} (point : ℚ × ℚ)
    (h : coords.length < 3) : is_point_in_polygon point coords = false := by
  simp [is_point_in_polygon, is_point_in_polygon_checked, h]

theorem is_point_in_polygon_isEmpty {coords : List (ℚ × ℚ)} (point : ℚ × ℚ)
    (h : coords.isEmpty = true) : is_point_in_polygon point coords = false := by
  rw [List.isEmpty_iff] at h
  subst h
  exact is_point_in_polygon_of_short point (by simp)

theorem length_of_contains {coords : List (ℚ × ℚ)} {point : ℚ × ℚ}
    (h : is_point_in_polygon point coords = true) : 3 ≤ coords.length := by
  by_contra hlt
  rw [is_point_in_polygon_of_short point (by omega)] at h
  exact Bool.false_ne_true h

theorem alertStep_foldl (zone : Zone) (coords : List (ℚ × ℚ)) :
    ∀ (dets : List Detection) (acc : List ZoneAlert),
      dets.foldl (alertStep zone coords) acc =
        acc ++ dets.filterMap (fun d =>
          if is_point_in_polygon (get_bbox_center d.bbox) coords then
            some (zoneDetectionAlert zone d)
          else none) := by
  intro dets
  induction dets with
  | nil => intro acc; simp
  | cons d ds ih =>
    intro acc
    rw [List.foldl_cons, ih, List.filterMap_cons]
    by_cases h : is_point_in_polygon (get_bbox_center d.bbox) coords = true
    · simp [alertStep, h]
    · rw [Bool.not_eq_true] at h
      simp [alertStep, h]

theorem zoneStep_foldl (dets : List Detection) :
    ∀ (zones : List Zone) (a : List ZoneAlert) (r : List Nat),
      zones.foldl (zoneStep dets) (a, r) =
        (a ++ zones.flatMap (fun z => if z.active = true then zoneAlerts dets z else []),
         r ++ invalidReport zones) := by
  intro zones
  induction zones with
  | nil => intro a r; simp [invalidReport]
  | cons z zs ih =>
    intro a r
    rw [List.foldl_cons]
    by_cases hact : z.active = true
    · by_cases hemp : (parse_zone_coordinates z.coordinates_json).isEmpty = true
      · have hz : zoneStep dets (a, r) z = (a, r ++ [z.id]) := by
          simp [zoneStep, hact, hemp]
        have hzero : zoneAlerts dets z = [] := by
          simp only [zoneAlerts]
          rw [List.filterMap_eq_nil_iff]
          intro d _
          simp [is_point_in_polygon_isEmpty _ hemp]
        rw [hz, ih]
        rw [List.isEmpty_iff] at hemp
        simp [invalidReport, List.filterMap_cons, List.flatMap_cons, hact, hemp, hzero]
      · have hz : zoneStep dets (a, r) z =
            (dets.foldl (alertStep z (parse_zone_coordinates z.coordinates_json)) a, r) := by
          simp [zoneStep, hact, hemp]
        rw [hz, alertStep_foldl, ih]
        simp only [List.isEmpty_iff] at hemp
        simp [invalidReport, List.filterMap_cons, List.flatMap_cons, hact, hemp, zoneAlerts]
    · rw [Bool.not_eq_true] at hact
      have hz : zoneStep dets (a, r) z = (a, r) := by
        simp [zoneStep, hact]
      rw [hz, ih]
      simp [invalidReport, List.filterMap_cons, List.flatMap_cons, hact]

theorem check_zones_with_report_eq (dets : List Detection) (zones : List Zone) :
    check_zones_with_report dets zones =
      (zones.flatMap (fun z => if z.active = true then zoneAlerts dets z else []),
       invalidReport zones) := by
  unfold check_zones_with_report
  by_cases h : zones.isEmpty = true
  · rw [List.isEmpty_iff] at h
    subst h
    simp [invalidReport]
  · rw [if_neg (by simpa using h), zoneStep_foldl]
    simp

theorem check_zones_eq (dets : List Detection) (zones : List Zone) :
    check_zones dets zones =
      zones.flatMap (fun z => if z.active = true then zoneAlerts dets z else []) := by
  rw [check_zones, check_zones_with_report_eq]

/-! Claim theorems. -/

/-- C1: for every list of zones and every list of detections, check_zones
emits exactly one alert per pair (zone, detection) such that the zone is
active with a valid polygon and the center of the detection bounding box is
contained in the zone polygon; the alert carries that zone id, name and
alert_type and that detection confidence; no cross-zone or cross-detection
deduplication occurs, and the output is in zone-then-detection iteration
order. -/
theorem check_zones_alert_per_pair (dets : List Detection) (zones : List Zone) :
    check_zones dets zones =
      (zones.flatMap (fun z => dets.map (fun d => (z, d)))).filterMap (fun p =>
        if p.1.active = true ∧ parse_zone_coordinates p.1.coordinates_json ≠ [] ∧
            is_point_in_polygon (get_bbox_center p.2.bbox)
              (parse_zone_coordinates p.1.coordinates_json) = true then
          some (zoneDetectionAlert p.1 p.2)
        else none) := by
  rw [check_zones_eq]
  induction zones with
  | nil => simp
  | cons z zs ih =>
    rw [List.flatMap_cons, List.flatMap_cons, List.filterMap_append, ← ih]
    congr 1
    rw [List.filterMap_map]
    by_cases hact : z.active = true
    · rw [if_pos hact]
      unfold zoneAlerts
      apply List.filterMap_congr
      intro d _
      by_cases hin : is_point_in_polygon (get_bbox_center d.bbox)
          (parse_zone_coordinates z.coordinates_json) = true
      · have hne : parse_zone_coordinates z.coordinates_json ≠ [] := by
          intro hnil
          have := length_of_contains hin
          rw [hnil] at this
          simp at this
        simp [Function.comp, hin, hact, hne]
      · rw [Bool.not_eq_true] at hin
        simp [Function.comp, hin]
    · rw [if_neg hact]
      symm
      rw [List.filterMap_eq_nil_iff]
      intro p _
      simp [Function.comp, hact]

/-- C3: for every point and every polygon with fewer than 3 vertices, the
containment predicate answers false and signals the invalid-polygon
condition instead of running the containment computation, and (being a total
function) never raises; the demo ray-casting predicate likewise answers
false. -/
theorem degenerate_polygon_rejected (point : ℚ × ℚ) (coords : List (ℚ × ℚ))
    (h : coords.length < 3) :
    is_point_in_polygon_checked point coords = .invalid ∧
    is_point_in_polygon point coords = false ∧
    point_in_polygon point coords = false := by
  refine ⟨?_, is_point_in_polygon_of_short point h, ?_⟩
  · simp [is_point_in_polygon_checked, h]
  · simp [point_in_polygon, h]

/-- Witness for C3 at a concrete two-vertex polygon. -/
theorem degenerate_polygon_rejected_witness :
    is_point_in_polygon_checked (1, 1) [(0, 0), (2, 0)] = .invalid ∧
    is_point_in_polygon (1, 1) [(0, 0), (2, 0)] = false ∧
    point_in_polygon (1, 1) [(0, 0), (2, 0)] = false :=
  degenerate_polygon_rejected (1, 1) [(0, 0), (2, 0)] (by decide)

/-- C4: the detection filter keeps a person box exactly when its confidence
is at least 0.3, its width at least 20 and its height at least 40, preserving
order; the boundaries are inclusive: confidence exactly 0.3 is retained and
strictly below is dropped, width 19 is dropped and width 20 retained. -/
theorem detect_objects_filter_spec (boxes : List RawBox) :
    detect_objects boxes = (boxes.filter keepsBox).map detectionOfBox ∧
    detect_objects [⟨0, 0.3, 0, 0, 20, 40⟩] = [detectionOfBox ⟨0, 0.3, 0, 0, 20, 40⟩] ∧
    detect_objects [⟨0, 0.29, 0, 0, 20, 40⟩] = [] ∧
    detect_objects [⟨0, 0.9, 0, 0, 19, 40⟩] = [] ∧
    detect_objects [⟨0, 0.9, 0, 0, 20, 39⟩] = [] ∧
    detect_objects [⟨0, 0.9, 0, 0, 20, 40⟩] = [detectionOfBox ⟨0, 0.9, 0, 0, 20, 40⟩] := by
  refine ⟨?_,
    by norm_num [detect_objects, person_class_id, detectionOfBox, List.filterMap_cons],
    by norm_num [detect_objects, person_class_id, List.filterMap_cons],
    by norm_num [detect_objects, person_class_id, List.filterMap_cons],
    by norm_num [detect_objects, person_class_id, List.filterMap_cons],
    by norm_num [detect_objects, person_class_id, detectionOfBox, List.filterMap_cons]⟩
  induction boxes with
  | nil => simp [detect_objects]
  | cons b bs ih =>
    rw [detect_objects, List.filterMap_cons, List.filter_cons, ← detect_objects, ih]
    by_cases hc : b.class_id = person_class_id
    · by_cases hconf : b.conf < (0.3 : ℚ)
      · have : keepsBox b = false := by
          simp [keepsBox, hc]
          intro hle
          exact absurd hconf (not_lt.mpr hle)
        simp [hc, hconf, this]
      · by_cases hsize : b.x2 - b.x1 < 20 ∨ b.y2 - b.y1 < 40
        · have : keepsBox b = false := by
            simp only [keepsBox, decide_eq_false_iff_not]
            rintro ⟨-, -, hw, hh⟩
            rcases hsize with hs | hs
            · exact absurd hs (not_lt.mpr hw)
            · exact absurd hs (not_lt.mpr hh)
          simp [hc, hconf, hsize, this, detectionOfBox]
        · have : keepsBox b = true := by
            push_neg at hsize
            simp [keepsBox, hc, not_lt.mp hconf, hsize.1, hsize.2]
          simp [hc, hconf, hsize, this, detectionOfBox]
    · have : keepsBox b = false := by
        simp [keepsBox, hc]
      simp [hc, this]

/-- C5: a zone whose coordinate data is unparsable or whose geometry is
invalid (fewer than 3 parsed points) is skipped without failing the batch:
the remaining zones produce exactly the alerts they would produce alone.
The condition is reported for observability: an active unparsable zone is
reported by the evaluator itself, and an invalid geometry is signalled by
the containment predicate on every test against it. -/
theorem invalid_zone_skipped (dets : List Detection) (z : Zone) (zs1 zs2 : List Zone)
    (hshort : (parse_zone_coordinates z.coordinates_json).length < 3) :
    check_zones dets (zs1 ++ z :: zs2) = check_zones dets (zs1 ++ zs2) ∧
    (z.active = true → parse_zone_coordinates z.coordinates_json = [] →
      z.id ∈ (check_zones_with_report dets (zs1 ++ z :: zs2)).2) ∧
    (∀ d ∈ dets, is_point_in_polygon_checked (get_bbox_center d.bbox)
      (parse_zone_coordinates z.coordinates_json) = .invalid) := by
  have hzero : zoneAlerts dets z = [] := by
    simp only [zoneAlerts]
    rw [List.filterMap_eq_nil_iff]
    intro d _
    simp [is_point_in_polygon_of_short _ hshort]
  refine ⟨?_, ?_, ?_⟩
  · rw [check_zones_eq, check_zones_eq, List.flatMap_append, List.flatMap_append,
      List.flatMap_cons]
    by_cases hact : z.active = true
    · simp [hact, hzero]
    · rw [Bool.not_eq_true] at hact
      simp [hact]
  · intro hact hbad
    rw [check_zones_with_report_eq]
    simp only [invalidReport, List.filterMap_append, List.filterMap_cons]
    simp [hact, hbad]
  · intro d _
    simp [is_point_in_polygon_checked, hshort]

/-- Witness for C5: the unparsable zone in the middle of a batch contributes
nothing and is reported. -/
theorem invalid_zone_skipped_witness :
    (parse_zone_coordinates badJsonZone.coordinates_json).length < 3 ∧
    (check_zones [centerDetection] ([sq100Zone] ++ badJsonZone :: []) =
      check_zones [centerDetection] ([sq100Zone] ++ []) ∧
    (badJsonZone.active = true → parse_zone_coordinates badJsonZone.coordinates_json = [] →
      badJsonZone.id ∈
        (check_zones_with_report [centerDetection] ([sq100Zone] ++ badJsonZone :: [])).2) ∧
    (∀ d ∈ [centerDetection], is_point_in_polygon_checked (get_bbox_center d.bbox)
      (parse_zone_coordinates badJsonZone.coordinates_json) = .invalid)) :=
  ⟨by decide, invalid_zone_skipped [centerDetection] badJsonZone [sq100Zone] [] (by decide)⟩

/-- C6: a zone with active = false never contributes an alert: removing it
from any batch leaves the produced alerts unchanged, for every list of
detections and every detection position. -/
theorem inactive_zone_no_alerts (dets : List Detection) (z : Zone) (zs1 zs2 : List Zone)
    (hact : z.active = false) :
    check_zones dets (zs1 ++ z :: zs2) = check_zones dets (zs1 ++ zs2) := by
  rw [check_zones_eq, check_zones_eq, List.flatMap_append, List.flatMap_append,
    List.flatMap_cons]
  simp [hact]

/-- Witness for C6: the inactive square zone produces nothing even with a
detection centered inside it. -/
theorem inactive_zone_no_alerts_witness :
    inactiveZone.active = false ∧
    check_zones [centerDetection] ([] ++ inactiveZone :: [sq100Zone]) =
      check_zones [centerDetection] ([] ++ [sq100Zone]) :=
  ⟨rfl, inactive_zone_no_alerts [centerDetection] inactiveZone [] [sq100Zone] rfl⟩

/-- C9: an active zone whose coordinates parse to one or two points passes
the emptiness check (it is not reported as invalid), yet emits no alert for
any detection, because containment is false against a polygon with fewer
than 3 vertices. -/
theorem short_polygon_zone_silent (dets : List Detection) (z : Zone) (zs1 zs2 : List Zone)
    (hact : z.active = true)
    (hpos : 0 < (parse_zone_coordinates z.coordinates_json).length)
    (hlt : (parse_zone_coordinates z.coordinates_json).length < 3) :
    check_zones_with_report dets [z] = ([], []) ∧
    check_zones_with_report dets (zs1 ++ z :: zs2) =
      check_zones_with_report dets (zs1 ++ zs2) := by
  have hne : (parse_zone_coordinates z.coordinates_json).isEmpty = false := by
    cases hp : parse_zone_coordinates z.coordinates_json with
    | nil => rw [hp] at hpos; simp at hpos
    | cons c rest => simp
  have hzero : zoneAlerts dets z = [] := by
    simp only [zoneAlerts]
    rw [List.filterMap_eq_nil_iff]
    intro d _
    simp [is_point_in_polygon_of_short _ hlt]
  have hnn : parse_zone_coordinates z.coordinates_json ≠ [] := by
    intro hp
    rw [hp] at hne
    simp at hne
  constructor
  · rw [check_zones_with_report_eq]
    simp [invalidReport, List.filterMap_cons, hact, hne, hnn, hzero]
  · rw [check_zones_with_report_eq, check_zones_with_report_eq]
    simp only [invalidReport, List.filterMap_append, List.filterMap_cons,
      List.flatMap_append, List.flatMap_cons]
    simp [hact, hne, hzero]

/-- Witness for C9: the two-point zone is silently inert. -/
theorem short_polygon_zone_silent_witness :
    twoPointZone.active = true ∧
    0 < (parse_zone_coordinates twoPointZone.coordinates_json).length ∧
    (parse_zone_coordinates twoPointZone.coordinates_json).length < 3 ∧
    (check_zones_with_report [centerDetection] [twoPointZone] = ([], []) ∧
    check_zones_with_report [centerDetection] ([sq100Zone] ++ twoPointZone :: []) =
      check_zones_with_report [centerDetection] ([sq100Zone] ++ [])) :=
  ⟨rfl, by decide, by decide,
    short_polygon_zone_silent [centerDetection] twoPointZone [sq100Zone] [] rfl
      (by decide) (by decide)⟩

/-- C2 counterexample: a zone with active = true whose active-hours window
(9 to 17) does not contain evaluation time 3 is nevertheless returned by the
engine read get_camera_zones, while the spec-side activeZonesForCamera read
excludes it, so the two reads differ. -/
theorem active_hours_window_ignored :
    activeHoursContains nightZone.active_hours 3 = false ∧
    get_camera_zones c2Db "cam1" true = [nightZone] ∧
    activeZonesForCamera c2Db "cam1" 3 = [] ∧
    get_camera_zones c2Db "cam1" true ≠ activeZonesForCamera c2Db "cam1" 3 := by
  refine ⟨rfl, rfl, rfl, ?_⟩
  intro h
  rw [show get_camera_zones c2Db "cam1" true = [nightZone] from rfl,
    show activeZonesForCamera c2Db "cam1" 3 = [] from rfl] at h
  simp at h

/-- C2 (amended): the Zone Registry read used by the engine returns exactly
the zones of the camera with active = true; the active-hours window is not
consulted, so the engine read is a superset of the spec-side
active-hours-aware read at every evaluation time. -/
theorem get_camera_zones_active_only (db : Db) (camera_id : String) :
    get_camera_zones db camera_id true =
      db.zones.filter (fun z => z.camera_id == camera_id && z.active) ∧
    ∀ at_time : ℚ, ∀ z ∈ activeZonesForCamera db camera_id at_time,
      z ∈ get_camera_zones db camera_id true := by
  constructor
  · unfold get_camera_zones
    rw [if_pos rfl, List.filter_filter]
    apply List.filter_congr
    intro z _
    rw [Bool.and_comm]
  · intro t z hz
    unfold activeZonesForCamera at hz
    rw [List.mem_filter] at hz
    unfold get_camera_zones
    rw [if_pos rfl, List.mem_filter, List.mem_filter]
    have h1 := hz.2
    simp only [Bool.and_eq_true] at h1
    exact ⟨⟨hz.1, h1.1.1⟩, h1.1.2⟩

/-- Witness for C2 (amended): at an in-window time the spec read returns the
windowed zone, and it is indeed part of the engine read. -/
theorem get_camera_zones_active_only_witness :
    nightZone ∈ activeZonesForCamera c2Db "cam1" 12 ∧
    nightZone ∈ get_camera_zones c2Db "cam1" true :=
  ⟨by rw [show activeZonesForCamera c2Db "cam1" 12 = [nightZone] from rfl]; exact List.mem_singleton.mpr rfl,
   (get_camera_zones_active_only c2Db "cam1").2 12 nightZone
     (by rw [show activeZonesForCamera c2Db "cam1" 12 = [nightZone] from rfl]; exact List.mem_singleton.mpr rfl)⟩

/-- C7: a zone-creation request with fewer than 3 coordinate points is
rejected with a 4xx validation error and the zone store is unchanged: no
Zone object is created or stored. -/
theorem short_coordinates_rejected (db : Db) (camera_id : String) (raw : ZoneCreateData)
    (owner_ok : Bool) (now : Nat) (h : raw.coordinates.length < 3) :
    (create_zone_endpoint db camera_id raw owner_ok now).1.isClientError = true ∧
    (create_zone_endpoint db camera_id raw owner_ok now).2 = db := by
  unfold create_zone_endpoint zoneCreateValidate
  by_cases hname : raw.name.length < 1 ∨ 255 < raw.name.length
  · rw [if_pos hname]
    exact ⟨rfl, rfl⟩
  · rw [if_neg hname, if_pos h]
    exact ⟨rfl, rfl⟩

/-- Witness for C7 at a concrete two-point request. -/
theorem short_coordinates_rejected_witness :
    twoPointRequest.coordinates.length < 3 ∧
    ((create_zone_endpoint emptyDb "cam1" twoPointRequest true 0).1.isClientError = true ∧
    (create_zone_endpoint emptyDb "cam1" twoPointRequest true 0).2 = emptyDb) :=
  ⟨by decide, short_coordinates_rejected emptyDb "cam1" twoPointRequest true 0 (by decide)⟩

/-- C8: a successful zone deletion deletes every alert referencing the
deleted zone id and leaves the alerts of other zones unchanged: afterwards
the alert store is exactly the previous store without that zone's alerts. -/
theorem delete_zone_cascades (db : Db) (zone_id : Nat)
    (h : (crud_delete_zone db zone_id).1 = true) :
    ((crud_delete_zone db zone_id).2).alerts =
      db.alerts.filter (fun a => !(a.zone_id == zone_id)) ∧
    ∀ a ∈ ((crud_delete_zone db zone_id).2).alerts, a.zone_id ≠ zone_id := by
  cases hgz : get_zone db zone_id with
  | none =>
    exfalso
    unfold crud_delete_zone at h
    rw [hgz] at h
    simp at h
  | some z =>
    have hres : (crud_delete_zone db zone_id).2 =
        { db with
            alerts := db.alerts.filter (fun a => !(a.zone_id == zone_id)),
            zones := db.zones.eraseP (fun zz => zz.id == zone_id) } := by
      unfold crud_delete_zone
      rw [hgz]
    rw [hres]
    refine ⟨rfl, ?_⟩
    intro a ha
    rw [List.mem_filter] at ha
    have := ha.2
    simpa using this

/-- Witness for C8: deleting zone 1 removes its alert and keeps the alert of
zone 2. -/
theorem delete_zone_cascades_witness :
    (crud_delete_zone c8Db 1).1 = true ∧
    (((crud_delete_zone c8Db 1).2).alerts =
      c8Db.alerts.filter (fun a => !(a.zone_id == 1)) ∧
    ∀ a ∈ ((crud_delete_zone c8Db 1).2).alerts, a.zone_id ≠ 1) :=
  ⟨rfl, delete_zone_cascades c8Db 1 rfl⟩

theorem pyFloat_complete {v : JsonVal} {q : ℚ} (h : ConvertsToFloat v q) :
    pyFloat v = some q := by
  cases h <;> simp [pyFloat]

theorem coordsOfList_complete {v : JsonVal} {l : List (ℚ × ℚ)}
    (h : CoordArray v l) : coordsOfJson (some v) = some l := by
  induction h with
  | nil => rfl
  | @cons a b x y rest restl hca hcb hrest ih =>
    show coordsOfList (JsonVal.arr [a, b] :: rest) = some ((x, y) :: restl)
    have hel : coordOfElem (.arr [a, b]) = some (x, y) := by
      simp [coordOfElem, pyFloat_complete hca, pyFloat_complete hcb]
    have hrestl : coordsOfList rest = some restl := ih
    unfold coordsOfList
    rw [hel, hrestl]

theorem pyFloat_none_of_floatAlwaysRaises {v : JsonVal}
    (h : floatAlwaysRaises v = true) : pyFloat v = none := by
  cases v with
  | num q => simp [floatAlwaysRaises] at h
  | bool b => simp [floatAlwaysRaises] at h
  | str s => simp [floatAlwaysRaises] at h
  | null => rfl
  | arr l => rfl
  | obj fields => rfl

theorem coordOfElem_none_of_unpackRaises {e : JsonVal}
    (h : unpackRaises e = true) : coordOfElem e = none := by
  cases e with
  | num q => rfl
  | bool b => rfl
  | null => rfl
  | str s =>
    simp only [unpackRaises, decide_eq_true_eq] at h
    simp only [coordOfElem]
    split
    · rename_i c1 c2 heq
      exfalso
      apply h
      rw [heq]
      rfl
    · rfl
  | arr l =>
    cases l with
    | nil => rfl
    | cons a l2 =>
      cases l2 with
      | nil => rfl
      | cons b l3 =>
        cases l3 with
        | nil =>
          simp only [unpackRaises, Bool.or_eq_true] at h
          simp only [coordOfElem]
          split
          · rename_i x y hx hy
            exfalso
            rcases h with ha | hb
            · rw [pyFloat_none_of_floatAlwaysRaises ha] at hx
              cases hx
            · rw [pyFloat_none_of_floatAlwaysRaises hb] at hy
              cases hy
          · rfl
        | cons c l4 => rfl
  | obj fields =>
    simp only [unpackRaises, decide_eq_true_eq] at h
    cases fields with
    | nil => rfl
    | cons f1 fs2 =>
      cases fs2 with
      | nil => rfl
      | cons f2 fs3 =>
        cases fs3 with
        | nil => exfalso; apply h; rfl
        | cons f3 fs4 => rfl

theorem coordsOfList_none_of_mem {elems : List JsonVal} {e : JsonVal}
    (he : e ∈ elems) (hn : coordOfElem e = none) : coordsOfList elems = none := by
  induction elems with
  | nil => cases he
  | cons a as ih =>
    rcases List.mem_cons.mp he with rfl | hmem
    · unfold coordsOfList
      rw [hn]
    · unfold coordsOfList
      rw [ih hmem]
      split
      · rename_i p rest hp hrest
        cases hrest
      · rfl

/-- C10 (amended): parse_zone_coordinates is total over all inputs — whenever
any step of the conversion raises it returns the empty list, so it always
returns a list of coordinate pairs and never raises; an input that is not
valid JSON yields the empty list, as do a parsed value that is not iterable
(a number, boolean or null) and a parsed array containing an element whose
unpack-and-convert step necessarily raises (a non-iterable element, a
sequence of length other than 2, or a pair with a null, array or object
component); a value that is a well-formed coordinate array (2-element arrays
of float-convertible components) yields exactly its conversion.  Elements
that are not pairs of numbers do not guarantee an empty result, because
Python float() also accepts booleans and numeric strings and 2-character
strings unpack as pairs. -/
theorem parse_zone_coordinates_total (j : Option JsonVal) :
    (coordsOfJson j = none → parse_zone_coordinates j = []) ∧
    (j = none → parse_zone_coordinates j = []) ∧
    (∀ v l, j = some v → CoordArray v l → parse_zone_coordinates j = l) ∧
    (∀ q, j = some (.num q) → parse_zone_coordinates j = []) ∧
    (∀ b, j = some (.bool b) → parse_zone_coordinates j = []) ∧
    (j = some .null → parse_zone_coordinates j = []) ∧
    (∀ elems e, j = some (.arr elems) → e ∈ elems → unpackRaises e = true →
      parse_zone_coordinates j = []) := by
  refine ⟨?_, ?_, ?_, ?_, ?_, ?_, ?_⟩
  · intro h
    unfold parse_zone_coordinates
    rw [h]
  · intro h
    rw [h]
    rfl
  · intro v l hj hc
    rw [hj]
    unfold parse_zone_coordinates
    rw [coordsOfList_complete hc]
  · intro q hj
    rw [hj]
    rfl
  · intro b hj
    rw [hj]
    rfl
  · intro hj
    rw [hj]
    rfl
  · intro elems e hj he hr
    rw [hj]
    unfold parse_zone_coordinates
    have : coordsOfJson (some (.arr elems)) = none :=
      coordsOfList_none_of_mem he (coordOfElem_none_of_unpackRaises hr)
    rw [this]

/-- Witness for C10 (amended): a well-formed numeric coordinate array parses
to its conversion, and an array containing a null element parses to the
empty list. -/
theorem parse_zone_coordinates_total_witness :
    parse_zone_coordinates (some (.arr [.arr [.num 1, .num 2]])) = [(1, 2)] ∧
    parse_zone_coordinates (some (.arr [.arr [.num 1, .num 2], .null])) = [] :=
  ⟨(parse_zone_coordinates_total (some (.arr [.arr [.num 1, .num 2]]))).2.2.1
    (.arr [.arr [.num 1, .num 2]]) [(1, 2)] rfl
    (.cons (.num 1) (.num 2) .nil),
   (parse_zone_coordinates_total (some (.arr [.arr [.num 1, .num 2], .null]))).2.2.2.2.2.2
    [.arr [.num 1, .num 2], .null] .null rfl (by simp) rfl⟩

/-- C10 counterexample: the stored strings whose json.loads values are
[[true, false]] and ["12"] have elements that are not pairs of JSON numbers
(a pair of booleans; a 2-character string), yet parse_zone_coordinates
returns the non-empty lists [(1, 0)] and [(1, 2)] — Python float() converts
booleans and digit strings, and a 2-character string unpacks as a pair —
not the empty list the claim requires. -/
theorem parse_zone_coordinates_bool_pair :
    parse_zone_coordinates (some (.arr [.arr [.bool true, .bool false]])) = [(1, 0)] ∧
    parse_zone_coordinates (some (.arr [.arr [.bool true, .bool false]])) ≠ [] ∧
    parse_zone_coordinates (some (.arr [.str "12"])) = [(1, 2)] ∧
    parse_zone_coordinates (some (.arr [.str "12"])) ≠ [] ∧
    (∀ a b : ℚ, JsonVal.arr [JsonVal.bool true, JsonVal.bool false] ≠
      JsonVal.arr [JsonVal.num a, JsonVal.num b]) ∧
    (∀ a b : ℚ, JsonVal.str "12" ≠ JsonVal.arr [JsonVal.num a, JsonVal.num b]) := by
  refine ⟨rfl, ?_, ?_, ?_, ?_, ?_⟩
  · have h1 : parse_zone_coordinates (some (.arr [.arr [.bool true, .bool false]])) =
        [(1, 0)] := rfl
    rw [h1]
    simp
  · rfl
  · have h2 : parse_zone_coordinates (some (.arr [.str "12"])) = [(1, 2)] := rfl
    rw [h2]
    simp
  · intro a b h
    simp at h
  · intro a b h
    simp at h

end CivicSentinel
